import Mathlib

/-!
Verification of the MCP Tool Invocation Gateway against its specification.

The definitions below are a shallow embedding of the gateway's request
lifecycle machinery, translated from the repository sources:

* `src/auth/policy.py` — policy engine (`get_allowed_tools_for_user`,
  `check_tool_permission`);
* `src/auth/models.py` — `UserClaims`, `AuthenticatedUser`;
* `src/auth/utils.py` — `decode_jwt` temporal validation;
* `src/ratelimit/limiter.py` — `TokenBucket`, `RateLimiter`,
  `check_rate_limit`;
* `src/gateway/proxy.py` — `forward_to_backend`, `forward_tool_call`;
* `src/gateway/service.py` — `invoke_tool`;
* `src/audit/logger.py` — `log_tool_invocation`, `audit_tool_invocation`;
* `src/mcp_transport/service.py` — `handle_tools_list`,
  `handle_tools_call`.

Python dictionaries are modelled as association lists, Python string sets
as `Finset String`, Python floats used by the token bucket as `ℚ` (the
bucket arithmetic exercised here is exact), and the monotonic/wall clocks
as an explicit `now` parameter.  Fallible calls return `Except`.  Message
strings follow the source texts with quote characters omitted.
-/

namespace MCPGateway

/-! ## Data model: claims, users, tools (src/auth/models.py, src/registry/models.py) -/

/-- JWT claims extracted from the token (`UserClaims` in `src/auth/models.py`).
Only the fields the policy engine reads are represented. -/
structure UserClaims where
  user_id : String
  roles : List String := []
  groups : List String := []
  workspace : Option String := none
deriving DecidableEq, Repr

/-- An authenticated user (`AuthenticatedUser` in `src/auth/models.py`):
claims plus the derived `allowed_tools` set (which may contain the
wildcard sentinel). -/
structure AuthenticatedUser where
  claims : UserClaims
  allowed_tools : Finset String := ∅
deriving DecidableEq

/-- Convenience property `AuthenticatedUser.user_id`. -/
def AuthenticatedUser.user_id (u : AuthenticatedUser) : String :=
  u.claims.user_id

/-- Convenience property `AuthenticatedUser.roles`. -/
def AuthenticatedUser.roles (u : AuthenticatedUser) : List String :=
  u.claims.roles

/-- `AuthenticatedUser.can_use_tool`: membership in `allowed_tools`. -/
def AuthenticatedUser.can_use_tool (u : AuthenticatedUser) (tool_name : String) : Bool :=
  decide (tool_name ∈ u.allowed_tools)

/-- One active registry row as served by `get_all_tools_cached` /
`get_tools_by_scope_cached` (attributes read by the gateway service and
the MCP transport). -/
structure ToolRow where
  name : String
  scope : String
  backend_url : String := ""
  description : String := ""
  required_roles : List String := []
  tool_id : Option Nat := none
deriving DecidableEq, Repr

/-! ## Policy engine (src/auth/policy.py) -/

/-- Per-role section of `policy.yaml` (`roles: {role: {allowed_tools: [...]}}`). -/
structure RoleConfig where
  allowed_tools : List String := []
deriving DecidableEq, Repr

/-- Per-workspace section of `policy.yaml`
(`workspaces: {ws: {allowed_tools: [...], denied_tools: [...]}}`). -/
structure WorkspaceConfig where
  allowed_tools : List String := []
  denied_tools : List String := []
deriving DecidableEq, Repr

/-- Per-tool section of `policy.yaml` (`tools: {name: {required_roles: [...]}}`). -/
structure ToolPolicyConfig where
  required_roles : List String := []
deriving DecidableEq, Repr

/-- `PolicyConfig` from `src/auth/policy.py`; the three dicts are modelled
as association lists. -/
structure PolicyConfig where
  default_action : String := "deny"
  roles : List (String × RoleConfig) := []
  workspaces : List (String × WorkspaceConfig) := []
  tools : List (String × ToolPolicyConfig) := []
deriving DecidableEq, Repr

/-- `dict.get(key, default)` over an association list. -/
def assocFind {α : Type} (l : List (String × α)) (k : String) : Option α :=
  match l with
  | [] => none
  | (k', v) :: rest => if k' = k then some v else assocFind rest k

/-- Steps 1 of `get_allowed_tools_for_user`: union of each role's
`allowed_tools`; a role whose list is exactly `["*"]` contributes the
wildcard sentinel instead. -/
def roleAllowedUnion (policy : PolicyConfig) (roles : List String) : Finset String :=
  roles.foldl
    (fun acc role =>
      let role_allowed := ((assocFind policy.roles role).getD {}).allowed_tools
      if role_allowed = ["*"] then insert "*" acc
      else acc ∪ role_allowed.toFinset)
    ∅

/-- Step 2 of `get_allowed_tools_for_user`: workspace `allowed_tools`
handling — `["*"]` adds the sentinel, a non-empty concrete list replaces
the role union, an empty list leaves it unchanged. -/
def applyWorkspaceAllowed (policy : PolicyConfig) (claims : UserClaims)
    (allowed : Finset String) : Finset String :=
  match claims.workspace with
  | none => allowed
  | some ws =>
    let ws_allowed := ((assocFind policy.workspaces ws).getD {}).allowed_tools
    if ws_allowed = ["*"] then insert "*" allowed
    else if ws_allowed ≠ [] then ws_allowed.toFinset
    else allowed

/-- The `denied_tools` set collected in step 2 of
`get_allowed_tools_for_user` (empty when no workspace claim). -/
def workspaceDenied (policy : PolicyConfig) (claims : UserClaims) : Finset String :=
  match claims.workspace with
  | none => ∅
  | some ws => ((assocFind policy.workspaces ws).getD {}).denied_tools.toFinset

/-- The pre-deny allowed set: steps 1 and 2 of `get_allowed_tools_for_user`. -/
def allowedPreDeny (claims : UserClaims) (policy : PolicyConfig) : Finset String :=
  applyWorkspaceAllowed policy claims (roleAllowedUnion policy claims.roles)

/-- `get_allowed_tools_for_user` from `src/auth/policy.py`: role union,
workspace override, then the deny subtraction, which is skipped when the
set holds the wildcard and the user holds role `admin` (source lines
91-96). -/
def get_allowed_tools_for_user (claims : UserClaims) (policy : PolicyConfig) : Finset String :=
  let allowed_tools := allowedPreDeny claims policy
  let denied_tools := workspaceDenied policy claims
  if "*" ∉ allowed_tools then allowed_tools \ denied_tools
  else if "admin" ∉ claims.roles then allowed_tools \ denied_tools
  else allowed_tools

/-- `check_tool_permission` from `src/auth/policy.py`: wildcard returns
true immediately; otherwise the per-tool `required_roles` gate is applied
and then plain membership decides. -/
def check_tool_permission (claims : UserClaims) (tool_name : String)
    (policy : PolicyConfig) : Bool :=
  let allowed_tools := get_allowed_tools_for_user claims policy
  if "*" ∈ allowed_tools then true
  else
    let required_roles := ((assocFind policy.tools tool_name).getD {}).required_roles
    if required_roles ≠ [] ∧ ¬ required_roles.any (fun r => claims.roles.contains r) then
      false
    else
      decide (tool_name ∈ allowed_tools)

/-- The behaviour of `check_tool_permission` as the specification words
it: true iff the tool is in `allowed_tools` (or the wildcard is present)
AND, when the tool has non-empty `required_roles`, the user holds at
least one of them.  Used only to compare the source function against the
spec sentence; not translated from the source. -/
def check_tool_permission_spec (claims : UserClaims) (tool_name : String)
    (policy : PolicyConfig) : Bool :=
  let allowed_tools := get_allowed_tools_for_user claims policy
  let required_roles := ((assocFind policy.tools tool_name).getD {}).required_roles
  (decide (tool_name ∈ allowed_tools) || decide ("*" ∈ allowed_tools)) &&
    (decide (required_roles = []) || required_roles.any (fun r => claims.roles.contains r))

/-! ## Error taxonomy (src/gateway/exceptions.py, src/auth/exceptions.py) -/

/-- The gateway exception taxonomy from `src/gateway/exceptions.py`
together with `ToolNotAllowedError` from `src/auth/exceptions.py`.  Each
constructor keeps the attributes the handlers read. -/
inductive GatewayError where
  | payloadTooLarge (size_bytes max_bytes : Nat)
  | toolNotAllowed (tool_name user_id : String)
  | toolNotFound (tool_name : String)
  | backendTimeout (backend_url : String) (timeout_seconds : ℚ)
  | backendUnavailable (backend_url reason : String)
  | backendError (backend_url : String) (status_code : Nat) (detail : String)
deriving DecidableEq, Repr

/-- The `code` attribute each exception class sets in its constructor. -/
def GatewayError.code : GatewayError → String
  | .payloadTooLarge _ _ => "PAYLOAD_TOO_LARGE"
  | .toolNotAllowed _ _ => "TOOL_NOT_ALLOWED"
  | .toolNotFound _ => "TOOL_NOT_FOUND"
  | .backendTimeout _ _ => "BACKEND_TIMEOUT"
  | .backendUnavailable _ _ => "BACKEND_UNAVAILABLE"
  | .backendError _ _ _ => "BACKEND_ERROR"

/-- `str(e)` for a gateway exception: the `message` built in each
constructor (quote characters of the source f-strings omitted). -/
def GatewayError.message : GatewayError → String
  | .payloadTooLarge s m =>
      "Payload size " ++ toString s ++ " bytes exceeds limit of " ++ toString m ++ " bytes"
  | .toolNotAllowed t u => "User " ++ u ++ " is not allowed to use tool " ++ t
  | .toolNotFound t => "Tool " ++ t ++ " not found in registry"
  | .backendTimeout u _ => "Backend at " ++ u ++ " timed out"
  | .backendUnavailable u r => "Backend at " ++ u ++ " is unavailable: " ++ r
  | .backendError u s d =>
      "Backend at " ++ u ++ " returned error " ++ toString s ++ ": " ++ d

/-! ## Backend proxy (src/gateway/proxy.py) -/

/-- The JSON-RPC error object of an MCP response envelope. -/
structure MCPErrorDetail where
  code : Int
  message : String
deriving DecidableEq, Repr

/-- The parsed backend MCP response as the gateway handlers consume it.
`result` holds the serialized JSON of the `result` member (so
`json.dumps` is the identity on it); `tool_id` is the attribute
`handle_tools_call` reads off the response object (spec section 9 names
this duck-typed attribute set). -/
structure GatewayResponse where
  result : Option String := none
  error : Option MCPErrorDetail := none
  tool_id : Option Nat := none
  id : String := ""
deriving DecidableEq, Repr

/-- The headers attached by `forward_to_backend`. -/
structure HttpHeaders where
  content_type : String
  x_request_id : String
  x_gateway_auth : String
  x_user_id : Option String
deriving DecidableEq, Repr

/-- One HTTP POST issued by the proxy: target URL, the JSON-RPC body
(method and tool name), and the headers. -/
structure HttpPost where
  url : String
  method : String
  tool_name : String
  headers : HttpHeaders
deriving DecidableEq, Repr

/-- The transport-level behaviour of the backend for one POST, driving
the `except` arms of `forward_to_backend`. -/
inductive BackendBehavior where
  | timeout
  | connectError (reason : String)
  | requestError (reason : String)
  | httpResponse (status_code : Nat) (body_text : String) (parsed : GatewayResponse)
deriving DecidableEq, Repr

/-- Result of `forward_to_backend`: the POST it issued (if any) plus the
returned response or raised exception. -/
structure ForwardOutcome where
  post : Option HttpPost
  result : Except GatewayError GatewayResponse
deriving Repr

/-- `forward_to_backend` from `src/gateway/proxy.py`.  `request_id` is the
optional trace id (`genId` stands for the `uuid4` drawn when it is
missing); `shared_secret` is `settings.TOOL_GATEWAY_SHARED_SECRET`.  An
empty secret raises `BackendError(500, "Gateway shared secret not
configured")` before any POST; otherwise exactly one POST is issued with
`X-Request-ID` and `X-Gateway-Auth` headers, and `X-User-ID` only for a
truthy `user_id`. -/
def forward_to_backend (shared_secret backend_url : String)
    (method tool_name : String)
    (request_id : Option String) (genId : String) (user_id : Option String)
    (backend : BackendBehavior) : ForwardOutcome :=
  let rid := request_id.getD genId
  if shared_secret = "" then
    { post := none
      result := .error (.backendError backend_url 500 "Gateway shared secret not configured") }
  else
    let x_user_id := match user_id with
      | some u => if u = "" then none else some u
      | none => none
    let post : HttpPost :=
      { url := backend_url, method := method, tool_name := tool_name
        headers :=
          { content_type := "application/json"
            x_request_id := rid
            x_gateway_auth := shared_secret
            x_user_id := x_user_id } }
    let result : Except GatewayError GatewayResponse :=
      match backend with
      | .timeout => .error (.backendTimeout backend_url 30)
      | .connectError reason => .error (.backendUnavailable backend_url reason)
      | .requestError reason =>
          .error (.backendUnavailable backend_url ("Request failed: " ++ reason))
      | .httpResponse status body parsed =>
          if status ≥ 400 then .error (.backendError backend_url status (body.take 200))
          else .ok parsed
    { post := some post, result := result }

/-- `forward_tool_call` from `src/gateway/proxy.py`: resolves the trace id
and wraps the call into a `tools/call` JSON-RPC request before delegating
to `forward_to_backend`. -/
def forward_tool_call (shared_secret backend_url tool_name : String)
    (request_id : Option String) (genId : String) (user_id : Option String)
    (backend : BackendBehavior) : ForwardOutcome :=
  let rid := request_id.getD genId
  forward_to_backend shared_secret backend_url "tools/call" tool_name
    (some rid) genId user_id backend

/-! ## Audit recorder (src/audit/logger.py) -/

/-- `AuditStatus` from `src/audit/schemas.py`. -/
inductive AuditStatus where
  | success
  | error
  | timeout
  | rate_limited
deriving DecidableEq, Repr

/-- One persisted audit row (the fields of `AuditLogCreate` except the
wall-clock `duration_ms`). -/
structure AuditRecord where
  request_id : String
  user_id : String
  tool_name : String
  endpoint_path : String
  status : AuditStatus
  error_code : Option String
deriving DecidableEq, Repr

/-- Errors escaping the whole invocation: either a gateway exception or a
database exception raised by `create_audit_log`. -/
inductive PyError where
  | gateway (e : GatewayError)
  | db (message : String)
deriving DecidableEq, Repr

/-- `log_tool_invocation` from `src/audit/logger.py`: builds the row and
calls `create_audit_log` with NO exception handling, so a persistence
failure (modelled by the `persist` argument) escapes; on success the row
is appended to the audit table. -/
def log_tool_invocation (persist : Except String Unit) (record : AuditRecord)
    (table : List AuditRecord) : Except String (List AuditRecord) :=
  match persist with
  | .error e => .error e
  | .ok _ => .ok (table ++ [record])

/-- The exit of the `audit_tool_invocation` context manager from
`src/audit/logger.py`: the `finally` block runs `log_tool_invocation`;
in Python an exception raised in a `finally` block replaces the in-flight
business outcome, so a failing persist masks `body`. -/
def audit_tool_invocation (body : Except GatewayError GatewayResponse)
    (record : AuditRecord) (persist : Except String Unit)
    (table : List AuditRecord) : Except PyError GatewayResponse × List AuditRecord :=
  match log_tool_invocation persist record table with
  | .error e => (.error (.db e), table)
  | .ok table' => (body.mapError .gateway, table')

/-! ## Gateway service (src/gateway/service.py) -/

/-- `InvokeToolRequest` from `src/gateway/schemas.py`.  The `arguments`
dict is abstracted by the byte length of `json.dumps(arguments)` encoded
as UTF-8, which is all `validate_payload_size` reads. -/
structure InvokeToolRequest where
  tool_name : String
  argumentsSize : Nat
  request_id : Option String := none
deriving DecidableEq, Repr

/-- The status and error code the `except` chain of `invoke_tool` marks
on the audit context before re-raising (source lines 152-169); a success
leaves the defaults `success` / `None`. -/
def auditMarkOf : Except GatewayError GatewayResponse → AuditStatus × Option String
  | .ok _ => (.success, none)
  | .error (.backendTimeout _ _) => (.timeout, some "BACKEND_TIMEOUT")
  | .error (.backendUnavailable _ _) => (.error, some "BACKEND_UNAVAILABLE")
  | .error e@(.backendError _ _ _) => (.error, some e.code)
  | .error (.toolNotFound _) => (.error, some "TOOL_NOT_FOUND")
  | .error (.toolNotAllowed _ _) => (.error, some "TOOL_NOT_ALLOWED")
  | .error (.payloadTooLarge _ _) => (.error, some "PAYLOAD_TOO_LARGE")

/-- The `try` block of `invoke_tool` (steps 1-5 of source lines 111-150):
payload size check, permission check with wildcard fallback, registry
lookup, per-tool role gate, then the forward through the proxy. -/
def invoke_tool_body (user : AuthenticatedUser) (request : InvokeToolRequest)
    (all_tools : List ToolRow) (shared_secret : String) (rid genId : String)
    (backend : BackendBehavior) (max_payload_bytes : Nat) :
    Except GatewayError GatewayResponse :=
  if request.argumentsSize > max_payload_bytes then
    .error (.payloadTooLarge request.argumentsSize max_payload_bytes)
  else if ¬ user.can_use_tool request.tool_name ∧ "*" ∉ user.allowed_tools then
    .error (.toolNotAllowed request.tool_name user.user_id)
  else
    match all_tools.find? (fun t => t.name = request.tool_name) with
    | none => .error (.toolNotFound request.tool_name)
    | some tool =>
      if tool.required_roles ≠ [] ∧
          ¬ tool.required_roles.any (fun role => user.roles.contains role) then
        .error (.toolNotAllowed request.tool_name user.user_id)
      else
        (forward_tool_call shared_secret tool.backend_url request.tool_name
          (some rid) genId (some user.user_id) backend).result

/-- `invoke_tool` from `src/gateway/service.py`: resolves the request id,
opens the audit scope — passing NO `endpoint_path`, so the
`AuditContext` keeps its default `"/unknown"` — runs the body, marks the
context per the `except` chain, and persists on scope exit.  Returns the
escaping result together with the rows appended to the audit table by
this call. -/
def invoke_tool (user : AuthenticatedUser) (request : InvokeToolRequest)
    (all_tools : List ToolRow) (shared_secret : String) (genId : String)
    (backend : BackendBehavior) (max_payload_bytes : Nat)
    (persist : Except String Unit) :
    Except PyError GatewayResponse × List AuditRecord :=
  let rid := request.request_id.getD genId
  let body := invoke_tool_body user request all_tools shared_secret rid genId
    backend max_payload_bytes
  let mark := auditMarkOf body
  let record : AuditRecord :=
    { request_id := rid
      user_id := user.user_id
      tool_name := request.tool_name
      endpoint_path := "/unknown"
      status := mark.1
      error_code := mark.2 }
  audit_tool_invocation body record persist []

/-! ## Rate limiter (src/ratelimit/limiter.py)

Clocks (`time.time()`) are an explicit `now : ℚ` parameter; the float
bucket arithmetic is modelled over `ℚ`. -/

/-- `RateLimitConfig`: requests per minute and burst size. -/
structure RateLimitConfig where
  requests_per_minute : Nat := 1000
  burst_size : Nat := 2000
deriving DecidableEq, Repr

/-- The `tokens_per_second` property: `requests_per_minute / 60.0`. -/
def RateLimitConfig.tokens_per_second (c : RateLimitConfig) : ℚ :=
  (c.requests_per_minute : ℚ) / 60

/-- Python `int()` on the nonnegative float values the limiter produces
(truncation towards zero). -/
def pyInt (q : ℚ) : Int :=
  if 0 ≤ q then q.floor else -((-q).floor)

/-- `RateLimitResult` from `src/ratelimit/limiter.py`. -/
structure RateLimitResult where
  allowed : Bool
  limit : Nat
  remaining : Int
  reset_at : Int
  retry_after : ℚ := 0
deriving DecidableEq, Repr

/-- `TokenBucket` state: its config, current token count and the
`last_update` stamp. -/
structure TokenBucket where
  config : RateLimitConfig
  tokens : ℚ
  last_update : ℚ
deriving DecidableEq, Repr

/-- `TokenBucket.__init__`: starts full at `burst_size`, stamped with the
construction time. -/
def TokenBucket.init (config : RateLimitConfig) (now : ℚ) : TokenBucket :=
  { config := config, tokens := (config.burst_size : ℚ), last_update := now }

/-- `TokenBucket._refill`: lazy refill capped at `burst_size`. -/
def TokenBucket.refill (b : TokenBucket) (now : ℚ) : TokenBucket :=
  { b with
    tokens := min (b.config.burst_size : ℚ)
      (b.tokens + (now - b.last_update) * b.config.tokens_per_second)
    last_update := now }

/-- `TokenBucket.consume`: refill, then either take the tokens or deny
with `retry_after = tokens_needed / tokens_per_second`. -/
def TokenBucket.consume (b : TokenBucket) (now : ℚ) (tokens : ℚ := 1) :
    RateLimitResult × TokenBucket :=
  let b := b.refill now
  if b.tokens ≥ tokens then
    let b' := { b with tokens := b.tokens - tokens }
    ({ allowed := true
       limit := b.config.requests_per_minute
       remaining := pyInt b'.tokens
       reset_at := pyInt (b.last_update + 60) }, b')
  else
    let tokens_needed := tokens - b.tokens
    ({ allowed := false
       limit := b.config.requests_per_minute
       remaining := 0
       reset_at := pyInt (b.last_update + 60)
       retry_after := tokens_needed / b.config.tokens_per_second }, b)

/-- Insert-or-replace on an association list (`dict[key] = value`). -/
def assocSet {α : Type} (l : List (String × α)) (k : String) (v : α) :
    List (String × α) :=
  match l with
  | [] => [(k, v)]
  | (k', v') :: rest =>
    if k' = k then (k, v) :: rest else (k', v') :: assocSet rest k v

/-- `RateLimiter` state: the default config, the per-key bucket map and
the last cleanup stamp (`_cleanup_interval` is 300 s, the reap threshold
600 s). -/
structure RateLimiter where
  config : RateLimitConfig := {}
  buckets : List (String × TokenBucket) := []
  last_cleanup : ℚ
deriving DecidableEq, Repr

/-- `RateLimiter._cleanup_old_buckets`: every 5 minutes, drop buckets not
updated in the last 10 minutes. -/
def RateLimiter.cleanup (l : RateLimiter) (now : ℚ) : RateLimiter :=
  if now - l.last_cleanup < 300 then l
  else
    { l with
      buckets := l.buckets.filter (fun kb => ¬ kb.2.last_update < now - 600)
      last_cleanup := now }

/-- `RateLimiter.check`: cleanup, create the bucket on first use (with the
override config if given, else the limiter default), then consume one
token and store the updated bucket. -/
def RateLimiter.check (l : RateLimiter) (key : String)
    (config : Option RateLimitConfig) (now : ℚ) :
    RateLimitResult × RateLimiter :=
  let l := l.cleanup now
  let bucket := (assocFind l.buckets key).getD (TokenBucket.init (config.getD l.config) now)
  let rb := bucket.consume now 1
  (rb.1, { l with buckets := assocSet l.buckets key rb.2 })

/-- The stricter per-tool default built inside `check_rate_limit`. -/
def toolDefaultConfig : RateLimitConfig :=
  { requests_per_minute := 100, burst_size := 200 }

/-- `check_rate_limit` from `src/ratelimit/limiter.py`: consume the
user-level key first and short-circuit on denial; otherwise consume the
per-tool key (when a tool is named) with the stricter default config. -/
def check_rate_limit (l : RateLimiter) (user_id : String)
    (tool_name : Option String) (config : Option RateLimitConfig) (now : ℚ) :
    RateLimitResult × RateLimiter :=
  let user_key := "user:" ++ user_id
  let ur := l.check user_key config now
  if ¬ ur.1.allowed then ur
  else
    match tool_name with
    | some tool =>
      let tool_config := config.getD toolDefaultConfig
      let tool_key := "user:" ++ user_id ++ ":tool:" ++ tool
      ur.2.check tool_key (some tool_config) now
    | none => ur

/-! ## JWT validator (src/auth/utils.py)

`decode_jwt` is modelled for a token that already passed python-jose's
signature, issuer, audience and algorithm checks (the hypothesis of the
claim about it), with integer-valued temporal claims.  python-jose's
`jwt.decode` is called with `verify_exp: True` and no leeway option, and
its `_validate_exp` raises `ExpiredSignatureError` exactly when
`exp < now`; that check runs before any of the explicit checks in the
`try` body. -/

/-- Authentication failures from `src/auth/exceptions.py`. -/
inductive AuthError where
  | invalidToken (message : String)
  | expiredToken (message : String)
deriving DecidableEq, Repr

/-- The settings fields `decode_jwt` reads for its temporal and version
checks. -/
structure JwtSettings where
  clock_skew_seconds : Int := 60
  max_token_age_minutes : Int := 60
  allowed_api_versions : List String := []
deriving DecidableEq, Repr

/-- The claims of the already-verified payload that the temporal and
version checks read (the configured claim names at their defaults). -/
structure JwtPayloadTimes where
  exp : Int
  nbf : Option Int := none
  iat : Option Int := none
  api_version : Option String := none
deriving DecidableEq, Repr

/-- The api-version check at the end of `decode_jwt`. -/
def jwtVersionCheck (s : JwtSettings) (p : JwtPayloadTimes) : Except AuthError Unit :=
  if s.allowed_api_versions ≠ [] then
    match p.api_version with
    | none => .error (.invalidToken "JWT token missing required api version claim")
    | some v =>
      if ¬ s.allowed_api_versions.contains v then
        .error (.invalidToken "JWT token has unsupported api version")
      else .ok ()
  else .ok ()

/-- The max-age check of `decode_jwt` (only when
`max_token_age_minutes > 0`): requires `iat`, rejects an `iat` in the
future beyond skew, and rejects tokens older than the limit. -/
def jwtMaxAgeCheck (s : JwtSettings) (now skew : Int) (p : JwtPayloadTimes) :
    Except AuthError Unit :=
  if s.max_token_age_minutes > 0 then
    match p.iat with
    | none => .error (.invalidToken "JWT token missing required iat claim")
    | some iat =>
      if iat > now + skew then
        .error (.invalidToken "JWT token has invalid iat claim")
      else if now - skew > iat + s.max_token_age_minutes * 60 then
        .error (.invalidToken "JWT token too old")
      else jwtVersionCheck s p
  else jwtVersionCheck s p

/-- `decode_jwt` from `src/auth/utils.py`, restricted to a token passing
signature, issuer, audience and algorithm checks: python-jose's
`verify_exp` (zero leeway) runs first and is mapped by the
`except ExpiredSignatureError` arm to `ExpiredTokenError`; only then do
the explicit skew-tolerant expiry check, the `nbf` check and the max-age
and version checks of the `try` body run. -/
def decode_jwt (s : JwtSettings) (now : Int) (p : JwtPayloadTimes) :
    Except AuthError Unit :=
  if p.exp < now then .error (.expiredToken "JWT token has expired")
  else
    let skew := max 0 s.clock_skew_seconds
    if now - skew > p.exp then .error (.expiredToken "JWT token has expired")
    else if (match p.nbf with | some n => decide (now + skew < n) | none => false) then
      .error (.invalidToken "JWT token not yet valid")
    else jwtMaxAgeCheck s now skew p

/-! ## MCP transport (src/mcp_transport/service.py) -/

/-- `META_TOOL_NAMES` from `src/mcp_transport/service.py`. -/
def META_TOOL_NAMES : List String := ["find_tools", "call_tool"]

/-- One `{type, text}` content block of an MCP tool-call result. -/
structure MCPContent where
  type : String
  text : String
deriving DecidableEq, Repr

/-- `MCPToolCallResult` from `src/mcp_transport/schemas.py`. -/
structure MCPToolCallResult where
  content : List MCPContent
  isError : Bool
deriving DecidableEq, Repr

/-- The projection `_to_mcp_tool` keeps of a registry row for a listing
(`MCPTool` without the schema body, which the claims do not inspect). -/
structure MCPTool where
  name : String
  description : String
deriving DecidableEq, Repr

/-- `_is_tool_accessible` from `src/mcp_transport/service.py`: wildcard or
name membership, then the per-tool `required_roles` gate. -/
def is_tool_accessible (tool : ToolRow) (user : AuthenticatedUser) : Bool :=
  if "*" ∉ user.allowed_tools ∧ tool.name ∉ user.allowed_tools then false
  else if tool.required_roles ≠ [] ∧
      ¬ tool.required_roles.any (fun role => user.roles.contains role) then false
  else true

/-- `handle_tools_list` from `src/mcp_transport/service.py` (v2 scoped
flow): filter the scope's cached rows (`scoped_tools` stands for
`get_tools_by_scope_cached(db, scope)`, whose definition is absent from
the snapshot) by accessibility and exclude `META_TOOL_NAMES`, projecting
each survivor with `_to_mcp_tool`. -/
def handle_tools_list (scoped_tools : List ToolRow) (user : AuthenticatedUser) :
    List MCPTool :=
  (scoped_tools.filter
      (fun tool => is_tool_accessible tool user ∧ tool.name ∉ META_TOOL_NAMES)).map
    (fun tool => { name := tool.name, description := tool.description })

/-- Exceptions observable inside `handle_tools_call`'s `try` block: the
gateway taxonomy plus the interpreter-raised errors (`TypeError`,
`AttributeError`, and any other `Exception`) that its blanket
`except Exception` arm also absorbs. -/
inductive PyExc where
  | gw (e : GatewayError)
  | typeError (message : String)
  | attributeError (message : String)
  | dbError (message : String)
  | otherError (message : String)
deriving DecidableEq, Repr

/-- Whether an exception matches the `except ToolNotAllowedError` arm. -/
def PyExc.isToolNotAllowed : PyExc → Bool
  | .gw (.toolNotAllowed _ _) => true
  | _ => false

/-- `str(e)` for the exceptions `handle_tools_call` may catch. -/
def PyExc.text : PyExc → String
  | .gw e => e.message
  | .typeError m => m
  | .attributeError m => m
  | .dbError m => m
  | .otherError m => m

/-- The row `log_denied_tool_invocation` persists (fresh uuid `genId`,
status `error` with the given code). -/
def logDeniedRecord (genId user_id tool_name endpoint_path error_code : String) :
    AuditRecord :=
  { request_id := genId
    user_id := user_id
    tool_name := tool_name
    endpoint_path := endpoint_path
    status := .error
    error_code := some error_code }

/-- `handle_tools_call` from `src/mcp_transport/service.py`: registry
lookup (`TOOL_NOT_FOUND` result on a miss), endpoint-scope check
(denied audit row and re-raised `ToolNotAllowedError` on mismatch), then
the `try` block around the gateway invocation.  `inner` stands for the
evaluation of that invocation expression (in the snapshot it raises a
`TypeError`, because `invoke_tool` accepts no `endpoint_path` keyword);
`except ToolNotAllowedError` re-raises, `except Exception` returns an
`isError` result carrying the exception text.  The returned list holds
the audit rows this handler itself persists via
`log_denied_tool_invocation`. -/
def handle_tools_call (all_tools : List ToolRow) (user : AuthenticatedUser)
    (scope name endpoint_path genId : String)
    (inner : Except PyExc GatewayResponse) :
    Except PyExc MCPToolCallResult × List AuditRecord :=
  match all_tools.find? (fun t => t.name = name) with
  | none =>
    (.ok { content := [{ type := "text", text := "Error: Tool " ++ name ++ " not found" }]
           isError := true },
     [logDeniedRecord genId user.user_id name endpoint_path "TOOL_NOT_FOUND"])
  | some tool =>
    if tool.scope ≠ scope then
      (.error (.gw (.toolNotAllowed name user.user_id)),
       [logDeniedRecord genId user.user_id name endpoint_path "TOOL_NOT_IN_SCOPE"])
    else
      match inner with
      | .error e =>
        if e.isToolNotAllowed then (.error e, [])
        else
          (.ok { content := [{ type := "text", text := "Exception: " ++ e.text }]
                 isError := true }, [])
      | .ok response =>
        match response.error with
        | some err =>
          (.ok { content := [{ type := "text", text := "Error: " ++ err.message }]
                 isError := true }, [])
        | none =>
          (.ok { content := [{ type := "text", text := response.result.getD "null" }]
                 isError := false }, [])

/-! ## v2 scoped SSE dispatcher (absent from the snapshot) -/

/-- A JSON-RPC response envelope as the dispatcher returns it. -/
inductive JsonRpcOutcome where
  | result (r : MCPToolCallResult)
  | rpcError (code : Int) (message : String)
  | rateLimited (retry_after : ℚ)
  | raised (e : PyExc)
deriving DecidableEq, Repr

/-- Modelled from the spec: the `tools/call` branch of the v2 scoped
`sse_endpoint` (spec section 4.7).  The v2 dispatcher itself is missing
from `src/` — `src/mcp_transport/sse.py` still holds the retired v1
unscoped endpoint, while the v2 behaviour survives only in its route
tests — so this branch follows the spec's order: a meta-tool name
(`find_tools` / `call_tool`) is answered with `-32012` and a
"meta-tool removed in v2" message before anything else; otherwise the
rate limiter is consulted on both keys, a denial raises the rate-limit
error, and an allowance dispatches to `handle_tools_call` (translated
from the source above). -/
def sse_tools_call (limiter : RateLimiter) (now : ℚ)
    (all_tools : List ToolRow) (user : AuthenticatedUser)
    (scope name endpoint_path genId : String)
    (inner : Except PyExc GatewayResponse) :
    JsonRpcOutcome × RateLimiter :=
  if name ∈ META_TOOL_NAMES then
    (.rpcError (-32012) (name ++ ": " ++ "meta-tool removed in v2"), limiter)
  else
    let rl := check_rate_limit limiter user.user_id (some name) none now
    if ¬ rl.1.allowed then (.rateLimited rl.1.retry_after, rl.2)
    else
      match handle_tools_call all_tools user scope name endpoint_path genId inner with
      | (.ok r, _) => (.result r, rl.2)
      | (.error e, _) => (.raised e, rl.2)

/-! ## Iterated consumption and concrete inputs used by the theorems -/

/-- `k` successive `consume()` calls on a bucket at a fixed instant. -/
def consumeIter (b : TokenBucket) (now : ℚ) : Nat → TokenBucket
  | 0 => b
  | k + 1 => ((consumeIter b now k).consume now).2

/-- Claims of a user holding both the `admin` role (with wildcard) and a
second role granting `deploy`, inside workspace `prod`. -/
def adminDevClaims : UserClaims :=
  { user_id := "u1", roles := ["admin", "dev"], workspace := some "prod" }

/-- Policy giving `admin` the wildcard, `dev` the `deploy` tool, and
denying `deploy` in workspace `prod`. -/
def adminDenyPolicy : PolicyConfig :=
  { roles := [("admin", { allowed_tools := ["*"] }), ("dev", { allowed_tools := ["deploy"] })]
    workspaces := [("prod", { denied_tools := ["deploy"] })] }

/-- Claims of a non-admin user whose single role grants the wildcard. -/
def wildcardUserClaims : UserClaims :=
  { user_id := "u2", roles := ["poweruser"] }

/-- Policy giving `poweruser` the wildcard while `dangerous_tool`
requires role `admin`. -/
def roleGatePolicy : PolicyConfig :=
  { roles := [("poweruser", { allowed_tools := ["*"] })]
    tools := [("dangerous_tool", { required_roles := ["admin"] })] }

/-- A developer allowed exactly the calculator tool. -/
def aliceUser : AuthenticatedUser :=
  { claims := { user_id := "alice", roles := ["developer"] }
    allowed_tools := {"exact_calculate"} }

/-- The calculator registry row. -/
def calcRow : ToolRow :=
  { name := "exact_calculate", scope := "calculator"
    backend_url := "http://calculator:8000/mcp", tool_id := some 1 }

/-- The registry cache holding just the calculator row. -/
def calculatorTools : List ToolRow := [calcRow]

/-- A scoped listing input holding a row named like a meta-tool next to
the calculator row. -/
def metaScopedTools : List ToolRow :=
  [{ name := "find_tools", scope := "calculator" }, calcRow]

/-- A small invocation request with an explicit trace id. -/
def calcRequest : InvokeToolRequest :=
  { tool_name := "exact_calculate", argumentsSize := 64, request_id := some "req-1" }

/-- A backend answering 200 with a parsed result envelope. -/
def okBackend : BackendBehavior :=
  .httpResponse 200 "" { result := some "3", id := "req-1" }

/-- A successful backend response used by the audit-scope theorems. -/
def okResponse : GatewayResponse := { result := some "42", id := "r" }

/-- A sample audit row for the audit-scope theorems. -/
def sampleRecord : AuditRecord :=
  { request_id := "req-6", user_id := "bob", tool_name := "exact_calculate"
    endpoint_path := "/unknown", status := .success, error_code := none }

/-- A limiter whose user-level bucket for `u` is already empty. -/
def emptyUserLimiter : RateLimiter :=
  { config := {}
    buckets := [("user:u", { config := {}, tokens := 0, last_update := 0 })]
    last_cleanup := 0 }

/-- A fresh limiter with no buckets. -/
def freshLimiter : RateLimiter := { last_cleanup := 0 }

/-- Settings with a 30-second clock-skew tolerance and the other optional
checks disabled. -/
def skewSettings : JwtSettings :=
  { clock_skew_seconds := 30, max_token_age_minutes := 0, allowed_api_versions := [] }

/-- A payload whose `exp` lies 5 seconds in the past of `now = 1000`,
well within the 30-second skew. -/
def withinSkewPayload : JwtPayloadTimes := { exp := 995 }

/-! ## Theorems -/

/-- C1: `forward_to_backend` (and hence `forward_tool_call`) fails with
`BackendError("Gateway shared secret not configured")` and issues no HTTP
POST when the configured shared secret is empty or missing; and every
POST it does issue carries `X-Request-ID` equal to the request id and
`X-Gateway-Auth` equal to the configured shared secret. -/
theorem forward_to_backend_secret_and_headers
    (shared_secret backend_url method tool_name : String)
    (request_id : Option String) (genId : String) (user_id : Option String)
    (backend : BackendBehavior) :
    (shared_secret = "" →
      (forward_to_backend shared_secret backend_url method tool_name
          request_id genId user_id backend).post = none ∧
      (forward_to_backend shared_secret backend_url method tool_name
          request_id genId user_id backend).result =
        .error (.backendError backend_url 500 "Gateway shared secret not configured") ∧
      (forward_tool_call shared_secret backend_url tool_name
          request_id genId user_id backend).post = none ∧
      (forward_tool_call shared_secret backend_url tool_name
          request_id genId user_id backend).result =
        .error (.backendError backend_url 500 "Gateway shared secret not configured")) ∧
    (∀ p, (forward_to_backend shared_secret backend_url method tool_name
          request_id genId user_id backend).post = some p →
      p.headers.x_request_id = request_id.getD genId ∧
      p.headers.x_gateway_auth = shared_secret) ∧
    (∀ p, (forward_tool_call shared_secret backend_url tool_name
          request_id genId user_id backend).post = some p →
      p.headers.x_request_id = request_id.getD genId ∧
      p.headers.x_gateway_auth = shared_secret) := by
  refine ⟨?_, ?_, ?_⟩
  · intro hs
    simp [forward_to_backend, forward_tool_call, hs]
  · intro p hp
    by_cases hs : shared_secret = ""
    · simp [forward_to_backend, hs] at hp
    · simp [forward_to_backend, hs] at hp
      rw [← hp]
      exact ⟨rfl, rfl⟩
  · intro p hp
    by_cases hs : shared_secret = ""
    · simp [forward_tool_call, forward_to_backend, hs] at hp
    · simp [forward_tool_call, forward_to_backend, hs] at hp
      rw [← hp]
      exact ⟨rfl, rfl⟩

/-- C1 witness: at a concrete call with a present secret the issued POST
carries the expected headers, and with an empty secret no POST is
issued. -/
theorem forward_to_backend_secret_and_headers_witness :
    ((HttpPost.mk "http://calculator:8000/mcp" "tools/call" "exact_calculate"
        (HttpHeaders.mk "application/json" "req-1" "s3cret" (some "alice"))).headers.x_request_id =
      (some "req-1").getD "gen" ∧
      (HttpPost.mk "http://calculator:8000/mcp" "tools/call" "exact_calculate"
        (HttpHeaders.mk "application/json" "req-1" "s3cret" (some "alice"))).headers.x_gateway_auth =
      "s3cret") ∧
    (forward_to_backend "" "http://calculator:8000/mcp" "tools/call" "exact_calculate"
        (some "req-1") "gen" (some "alice") okBackend).post = none :=
  ⟨(forward_to_backend_secret_and_headers "s3cret" "http://calculator:8000/mcp"
      "tools/call" "exact_calculate" (some "req-1") "gen" (some "alice") okBackend).2.1
      _ (by decide),
   ((forward_to_backend_secret_and_headers "" "http://calculator:8000/mcp"
      "tools/call" "exact_calculate" (some "req-1") "gen" (some "alice") okBackend).1 rfl).1⟩

/-- C2 counterexample: a user who derives the wildcard and holds role
`admin` keeps a workspace-denied tool — `get_allowed_tools_for_user` does
NOT remove `deploy` although workspace `prod` denies it. -/
theorem get_allowed_tools_admin_wildcard_counterexample :
    "*" ∈ get_allowed_tools_for_user adminDevClaims adminDenyPolicy ∧
    "admin" ∈ adminDevClaims.roles ∧
    "deploy" ∈ workspaceDenied adminDenyPolicy adminDevClaims ∧
    "deploy" ∈ get_allowed_tools_for_user adminDevClaims adminDenyPolicy := by
  decide

/-- C2 amended: when the pre-deny set holds the wildcard AND the user
holds role `admin`, the deny subtraction is skipped entirely —
`get_allowed_tools_for_user` returns the pre-deny set, so
workspace-denied tools remain in the result. -/
theorem get_allowed_tools_wildcard_admin_skips_denies
    (claims : UserClaims) (policy : PolicyConfig)
    (hw : "*" ∈ allowedPreDeny claims policy) (ha : "admin" ∈ claims.roles) :
    get_allowed_tools_for_user claims policy = allowedPreDeny claims policy := by
  unfold get_allowed_tools_for_user
  simp [hw, ha]

/-- C2 witness: the amended statement at the concrete admin-with-wildcard
input. -/
theorem get_allowed_tools_wildcard_admin_skips_denies_witness :
    get_allowed_tools_for_user adminDevClaims adminDenyPolicy =
      allowedPreDeny adminDevClaims adminDenyPolicy :=
  get_allowed_tools_wildcard_admin_skips_denies adminDevClaims adminDenyPolicy
    (by decide) (by decide)

/-- C3 counterexample: a wildcard-holding user without role `admin` is
granted `dangerous_tool` by `check_tool_permission` even though the tool
requires role `admin` — contradicting the claimed iff, under which they
would be denied. -/
theorem check_tool_permission_counterexample :
    check_tool_permission wildcardUserClaims "dangerous_tool" roleGatePolicy = true ∧
    check_tool_permission_spec wildcardUserClaims "dangerous_tool" roleGatePolicy = false := by
  decide

/-- C3 amended: `check_tool_permission` returns true iff the wildcard is
in the derived `allowed_tools` (bypassing the role gate), or the tool is
in `allowed_tools` and, when the tool's `required_roles` is non-empty,
the user holds at least one of those roles. -/
theorem check_tool_permission_characterization
    (claims : UserClaims) (tool_name : String) (policy : PolicyConfig) :
    check_tool_permission claims tool_name policy =
      (decide ("*" ∈ get_allowed_tools_for_user claims policy) ||
        (decide (tool_name ∈ get_allowed_tools_for_user claims policy) &&
          (decide (((assocFind policy.tools tool_name).getD {}).required_roles = []) ||
            (((assocFind policy.tools tool_name).getD {}).required_roles).any
              (fun r => claims.roles.contains r)))) := by
  unfold check_tool_permission
  by_cases hw : "*" ∈ get_allowed_tools_for_user claims policy
  · simp [hw]
  · simp only [hw, if_false, decide_False, Bool.false_or]
    by_cases hr : ((assocFind policy.tools tool_name).getD {}).required_roles = []
    · simp [hr]
    · cases hany : (((assocFind policy.tools tool_name).getD {}).required_roles).any
          (fun r => claims.roles.contains r) <;>
        simp [hr, hany]

/-- C4: for every call of `invoke_tool` — whatever the outcome (success
or any exception of its taxonomy, all reachable through the quantified
inputs) — when persistence succeeds, exactly one audit record carrying
the request's id is appended on exit of the audit scope, and the body's
outcome (result or exception) escapes to the caller unchanged: the scope
swallows nothing. -/
theorem invoke_tool_audit_exactly_once
    (user : AuthenticatedUser) (request : InvokeToolRequest) (all_tools : List ToolRow)
    (shared_secret genId : String) (backend : BackendBehavior)
    (max_payload_bytes : Nat) (persist : Except String Unit)
    (hp : persist = .ok ()) :
    (invoke_tool user request all_tools shared_secret genId backend
        max_payload_bytes persist).2.length = 1 ∧
    (∀ r ∈ (invoke_tool user request all_tools shared_secret genId backend
        max_payload_bytes persist).2, r.request_id = request.request_id.getD genId) ∧
    (invoke_tool user request all_tools shared_secret genId backend
        max_payload_bytes persist).1 =
      (invoke_tool_body user request all_tools shared_secret
        (request.request_id.getD genId) genId backend max_payload_bytes).mapError
        PyError.gateway := by
  subst hp
  refine ⟨rfl, ?_, rfl⟩
  intro r hr
  simp [invoke_tool, audit_tool_invocation, log_tool_invocation] at hr
  rw [hr]

/-- C4 witness: the concrete calculator invocation appends exactly one
row carrying its request id, and the response escapes unchanged. -/
theorem invoke_tool_audit_exactly_once_witness :
    (invoke_tool aliceUser calcRequest calculatorTools "secret123" "gen-uuid"
        okBackend 1048576 (.ok ())).2.length = 1 ∧
    (∀ r ∈ (invoke_tool aliceUser calcRequest calculatorTools "secret123" "gen-uuid"
        okBackend 1048576 (.ok ())).2, r.request_id = calcRequest.request_id.getD "gen-uuid") ∧
    (invoke_tool aliceUser calcRequest calculatorTools "secret123" "gen-uuid"
        okBackend 1048576 (.ok ())).1 =
      (invoke_tool_body aliceUser calcRequest calculatorTools "secret123"
        (calcRequest.request_id.getD "gen-uuid") "gen-uuid" okBackend 1048576).mapError
        PyError.gateway :=
  invoke_tool_audit_exactly_once aliceUser calcRequest calculatorTools "secret123"
    "gen-uuid" okBackend 1048576 (.ok ()) rfl

/-- C5 (code bug): the audit row `invoke_tool` persists for a completed
scoped invocation carries the placeholder `endpoint_path = "/unknown"`,
not the URL path that served the request — `invoke_tool` opens its audit
scope without an `endpoint_path` argument (and accepts no such keyword,
although both of its callers pass one). -/
theorem invoke_tool_endpoint_path_is_placeholder :
    (invoke_tool aliceUser calcRequest calculatorTools "secret123" "gen-uuid"
        okBackend 1048576 (.ok ())).2 =
      [{ request_id := "req-1", user_id := "alice", tool_name := "exact_calculate"
         endpoint_path := "/unknown", status := .success, error_code := none }] ∧
    ("/unknown" : String) ≠ "/calculator/sse" := by
  decide

/-- C6 counterexample: a failing `create_audit_log` propagates out of the
audit scope and replaces the successful business outcome — the scope
exit does NOT absorb the persistence error. -/
theorem audit_persistence_failure_counterexample :
    (audit_tool_invocation (.ok okResponse) sampleRecord
        (.error "db write failed") []).1 = .error (.db "db write failed") ∧
    (audit_tool_invocation (.ok okResponse) sampleRecord
        (.error "db write failed") []).1 ≠ .ok okResponse := by
  refine ⟨rfl, ?_⟩
  intro h
  exact Except.noConfusion h

/-- C6 amended: a failure of the persistence step DOES propagate to the
caller — `log_tool_invocation` has no exception handling, so the
`finally` block of the audit scope re-raises the database error, masking
the business outcome, and no row is appended. -/
theorem audit_persistence_failure_masks_outcome
    (body : Except GatewayError GatewayResponse) (record : AuditRecord)
    (table : List AuditRecord) (msg : String) :
    (audit_tool_invocation body record (.error msg) table).1 = .error (.db msg) ∧
    (audit_tool_invocation body record (.error msg) table).2 = table :=
  ⟨rfl, rfl⟩

/-- Lookup after inserting the same key. -/
theorem assocFind_assocSet_self {α : Type} (l : List (String × α)) (k : String) (v : α) :
    assocFind (assocSet l k v) k = some v := by
  induction l with
  | nil => simp [assocSet, assocFind]
  | cons kv rest ih =>
    obtain ⟨k0, v0⟩ := kv
    by_cases h : k0 = k
    · simp [assocSet, assocFind, h]
    · simp [assocSet, assocFind, h, ih]

/-- Lookup of a different key is unchanged by an insert. -/
theorem assocFind_assocSet_ne {α : Type} (l : List (String × α)) (k k' : String) (v : α)
    (hne : k ≠ k') :
    assocFind (assocSet l k v) k' = assocFind l k' := by
  induction l with
  | nil => simp [assocSet, assocFind, hne]
  | cons kv rest ih =>
    obtain ⟨k0, v0⟩ := kv
    by_cases h : k0 = k
    · subst h
      simp [assocSet, assocFind, hne]
    · simp only [assocSet, assocFind, h, if_false, ite_false]
      by_cases h' : k0 = k'
      · simp [assocFind, h']
      · simp [assocFind, h', ih]

/-- The user-level key is never the per-tool key. -/
theorem userKey_ne_toolKey (uid tool : String) :
    "user:" ++ uid ≠ "user:" ++ uid ++ ":tool:" ++ tool := by
  intro h
  have hlen := congrArg String.length h
  have h6 : (":tool:" : String).length = 6 := rfl
  simp [String.length_append, h6] at hlen
  omega

/-- Cleanup never changes the limiter's default config. -/
theorem RateLimiter.cleanup_config (l : RateLimiter) (now : ℚ) :
    (l.cleanup now).config = l.config := by
  unfold RateLimiter.cleanup
  split <;> rfl

/-- A refill with no elapsed time leaves a within-capacity bucket
unchanged. -/
theorem TokenBucket.refill_no_elapse (b : TokenBucket)
    (hle : b.tokens ≤ (b.config.burst_size : ℚ)) :
    b.refill b.last_update = b := by
  simp [TokenBucket.refill, min_eq_right, hle]

/-- After `k ≤ burst_size` immediate consume calls, a fresh bucket holds
exactly `burst_size - k` tokens. -/
theorem consumeIter_fresh (cfg : RateLimitConfig) (t : ℚ) :
    ∀ k : Nat, k ≤ cfg.burst_size →
      consumeIter (TokenBucket.init cfg t) t k =
        { config := cfg, tokens := (cfg.burst_size : ℚ) - k, last_update := t } := by
  intro k
  induction k with
  | zero => intro _; simp [consumeIter, TokenBucket.init]
  | succ k ih =>
    intro hk
    have hk' : k ≤ cfg.burst_size := Nat.le_of_succ_le hk
    have hstate := ih hk'
    have hge : (cfg.burst_size : ℚ) - k ≥ 1 := by
      have : (k : ℚ) + 1 ≤ (cfg.burst_size : ℚ) := by
        exact_mod_cast hk
      linarith
    have hle : (cfg.burst_size : ℚ) - k ≤ (cfg.burst_size : ℚ) := by
      have : (0 : ℚ) ≤ (k : ℚ) := Nat.cast_nonneg k
      linarith
    show ((consumeIter (TokenBucket.init cfg t) t k).consume t).2 = _
    rw [hstate]
    have href :
        (TokenBucket.mk cfg ((cfg.burst_size : ℚ) - k) t).refill t =
          TokenBucket.mk cfg ((cfg.burst_size : ℚ) - k) t :=
      TokenBucket.refill_no_elapse (TokenBucket.mk cfg ((cfg.burst_size : ℚ) - k) t) hle
    simp only [TokenBucket.consume, href, hge, ge_iff_le, if_true, if_pos hge]
    have : (cfg.burst_size : ℚ) - k - 1 = (cfg.burst_size : ℚ) - (k + 1 : Nat) := by
      push_cast
      ring
    simp [this]

/-- C7: `check_rate_limit` consumes the user-level bucket first and
short-circuits a denial without touching the per-tool bucket; an
allowance consumes the per-tool bucket; every check result is a token
bucket consume, and a consume denial reports `allowed = false` with
`retry_after = tokens_needed / tokens_per_second`; and a fresh bucket
with no elapsed time allows exactly `burst_size` consume calls before
denying the next. -/
theorem check_rate_limit_contract (l : RateLimiter) (uid tool : String)
    (config : Option RateLimitConfig) (now : ℚ) :
    (¬ (l.check ("user:" ++ uid) config now).1.allowed →
      check_rate_limit l uid (some tool) config now =
        l.check ("user:" ++ uid) config now ∧
      assocFind (check_rate_limit l uid (some tool) config now).2.buckets
          ("user:" ++ uid ++ ":tool:" ++ tool) =
        assocFind (l.cleanup now).buckets ("user:" ++ uid ++ ":tool:" ++ tool)) ∧
    ((l.check ("user:" ++ uid) config now).1.allowed →
      check_rate_limit l uid (some tool) config now =
        ((l.check ("user:" ++ uid) config now).2).check
          ("user:" ++ uid ++ ":tool:" ++ tool) (some (config.getD toolDefaultConfig)) now) ∧
    (∀ (l' : RateLimiter) (key : String) (cfg : Option RateLimitConfig),
      (l'.check key cfg now).1 =
        (((assocFind (l'.cleanup now).buckets key).getD
            (TokenBucket.init (cfg.getD l'.config) now)).consume now 1).1 ∧
      assocFind (l'.check key cfg now).2.buckets key =
        some (((assocFind (l'.cleanup now).buckets key).getD
            (TokenBucket.init (cfg.getD l'.config) now)).consume now 1).2) ∧
    (∀ (b : TokenBucket) (t : ℚ), ¬ (b.refill t).tokens ≥ 1 →
      (b.consume t 1).1.allowed = false ∧
      (b.consume t 1).1.retry_after =
        (1 - (b.refill t).tokens) / b.config.tokens_per_second) ∧
    (∀ (cfg : RateLimitConfig) (t : ℚ),
      (∀ k, k < cfg.burst_size →
        ((consumeIter (TokenBucket.init cfg t) t k).consume t 1).1.allowed = true) ∧
      ((consumeIter (TokenBucket.init cfg t) t cfg.burst_size).consume t 1).1.allowed =
        false) := by
  refine ⟨?_, ?_, ?_, ?_, ?_⟩
  · intro h
    have hs : check_rate_limit l uid (some tool) config now =
        l.check ("user:" ++ uid) config now := by
      simp [check_rate_limit, h]
    refine ⟨hs, ?_⟩
    rw [hs]
    simp only [RateLimiter.check]
    exact assocFind_assocSet_ne _ _ _ _ (userKey_ne_toolKey uid tool)
  · intro h
    simp [check_rate_limit, h]
  · intro l' key cfg
    constructor
    · simp only [RateLimiter.check, RateLimiter.cleanup_config]
    · simp only [RateLimiter.check, RateLimiter.cleanup_config]
      exact assocFind_assocSet_self _ _ _
  · intro b t h
    have h' : ¬ (1 : ℚ) ≤ (b.refill t).tokens := h
    simp only [TokenBucket.consume, ge_iff_le]
    rw [if_neg h']
    exact ⟨rfl, rfl⟩
  · intro cfg t
    constructor
    · intro k hk
      have hstate := consumeIter_fresh cfg t k (Nat.le_of_lt hk)
      have hge : (1 : ℚ) ≤ (cfg.burst_size : ℚ) - k := by
        have : (k : ℚ) + 1 ≤ (cfg.burst_size : ℚ) := by exact_mod_cast hk
        linarith
      have hle : (cfg.burst_size : ℚ) - k ≤ (cfg.burst_size : ℚ) := by
        have : (0 : ℚ) ≤ (k : ℚ) := Nat.cast_nonneg k
        linarith
      rw [hstate]
      have href :
          (TokenBucket.mk cfg ((cfg.burst_size : ℚ) - k) t).refill t =
            TokenBucket.mk cfg ((cfg.burst_size : ℚ) - k) t :=
        TokenBucket.refill_no_elapse _ hle
      simp only [TokenBucket.consume, href, ge_iff_le]
      rw [if_pos hge]
    · have hstate := consumeIter_fresh cfg t cfg.burst_size le_rfl
      rw [sub_self] at hstate
      rw [hstate]
      have href : (TokenBucket.mk cfg 0 t).refill t = TokenBucket.mk cfg 0 t :=
        TokenBucket.refill_no_elapse _ (Nat.cast_nonneg _)
      have hlt : ¬ (1 : ℚ) ≤ (0 : ℚ) := by norm_num
      simp only [TokenBucket.consume, href, ge_iff_le]
      rw [if_neg hlt]

/-- C7 witness: on a limiter whose user bucket for `u` is empty, the
user-level denial short-circuits; and a fresh bucket of burst size 2 at a
fixed instant allows its first consume and denies the third. -/
theorem check_rate_limit_contract_witness :
    check_rate_limit emptyUserLimiter "u" (some "t") none 0 =
      emptyUserLimiter.check ("user:" ++ "u") none 0 ∧
    ((consumeIter (TokenBucket.init ⟨60, 2⟩ 0) 0 0).consume 0 1).1.allowed = true ∧
    ((consumeIter (TokenBucket.init ⟨60, 2⟩ 0) 0 2).consume 0 1).1.allowed = false := by
  have hden : ¬ (emptyUserLimiter.check ("user:" ++ "u") none 0).1.allowed = true := by
    have hclean : emptyUserLimiter.cleanup 0 = emptyUserLimiter := by
      unfold RateLimiter.cleanup
      norm_num [emptyUserLimiter]
    have hkey : ("user:" ++ "u" : String) = "user:u" := rfl
    simp only [RateLimiter.check, hclean, hkey]
    norm_num [emptyUserLimiter, assocFind, TokenBucket.consume, TokenBucket.refill,
      RateLimitConfig.tokens_per_second]
  exact ⟨((check_rate_limit_contract emptyUserLimiter "u" "t" none 0).1 hden).1,
    ((check_rate_limit_contract emptyUserLimiter "u" "t" none 0).2.2.2.2 ⟨60, 2⟩ 0).1 0
      (by norm_num),
    ((check_rate_limit_contract emptyUserLimiter "u" "t" none 0).2.2.2.2 ⟨60, 2⟩ 0).2⟩

/-- C8 (code bug): a token that passes signature, issuer, audience and
algorithm checks and whose `exp` lies 5 seconds in the past — within the
configured 30-second skew — is still rejected as expired: python-jose's
`verify_exp` (zero leeway, `exp < now`) preempts the explicit
skew-tolerant check at `utils.py:99`, which is unreachable, even though
`now − skew > exp` is false. -/
theorem decode_jwt_within_skew_rejected :
    decode_jwt skewSettings 1000 withinSkewPayload =
      .error (.expiredToken "JWT token has expired") ∧
    ¬ ((1000 : Int) - max 0 skewSettings.clock_skew_seconds > withinSkewPayload.exp) :=
  ⟨rfl, by decide⟩

/-- C9: on the v2 scoped dispatcher (modelled from the spec, its source
being absent from the snapshot) a `tools/call` naming a meta-tool is
answered with JSON-RPC error `-32012` and a message containing
"meta-tool removed in v2", without executing it; and `handle_tools_list`
(translated from the source) never lists `find_tools` or `call_tool` on
a scoped endpoint. -/
theorem meta_tools_rejected_and_never_listed
    (limiter : RateLimiter) (now : ℚ) (all_tools : List ToolRow)
    (user : AuthenticatedUser) (scope name endpoint_path genId : String)
    (inner : Except PyExc GatewayResponse) (scoped_tools : List ToolRow) :
    (name ∈ META_TOOL_NAMES →
      (sse_tools_call limiter now all_tools user scope name endpoint_path genId
          inner).1 =
        .rpcError (-32012) (name ++ ": " ++ "meta-tool removed in v2") ∧
      ∃ pre, name ++ ": " ++ "meta-tool removed in v2" =
        pre ++ "meta-tool removed in v2") ∧
    (∀ t ∈ handle_tools_list scoped_tools user, t.name ∉ META_TOOL_NAMES) := by
  constructor
  · intro hmeta
    exact ⟨by simp [sse_tools_call, hmeta], ⟨name ++ ": ", rfl⟩⟩
  · intro t ht
    simp only [handle_tools_list, List.mem_map, List.mem_filter] at ht
    obtain ⟨tool, ⟨_, hcond⟩, hmap⟩ := ht
    simp only [Bool.decide_and, Bool.and_eq_true, decide_eq_true_eq] at hcond
    rw [← hmap]
    exact hcond.2

/-- C9 witness: `find_tools` called on the calculator endpoint receives
the `-32012` envelope, and a scoped listing over rows that include a
`find_tools`-named row never surfaces a meta-tool name. -/
theorem meta_tools_rejected_and_never_listed_witness :
    (sse_tools_call freshLimiter 0 [] aliceUser "calculator" "find_tools"
        "/calculator/sse" "g" (.ok okResponse)).1 =
      .rpcError (-32012) ("find_tools" ++ ": " ++ "meta-tool removed in v2") ∧
    (∀ t ∈ handle_tools_list metaScopedTools aliceUser, t.name ∉ META_TOOL_NAMES) :=
  ⟨((meta_tools_rejected_and_never_listed freshLimiter 0 [] aliceUser "calculator"
      "find_tools" "/calculator/sse" "g" (.ok okResponse) metaScopedTools).1
      (by decide)).1,
   (meta_tools_rejected_and_never_listed freshLimiter 0 [] aliceUser "calculator"
      "find_tools" "/calculator/sse" "g" (.ok okResponse) metaScopedTools).2⟩

/-- C10: when the named tool exists and matches the endpoint scope,
`handle_tools_call` absorbs every exception of the inner gateway
invocation except `ToolNotAllowedError`, returning an `isError` result
whose text carries the exception message, while `ToolNotAllowedError` is
re-raised. -/
theorem handle_tools_call_absorbs_exceptions
    (all_tools : List ToolRow) (user : AuthenticatedUser)
    (scope name endpoint_path genId : String) (tool : ToolRow)
    (inner : Except PyExc GatewayResponse)
    (hfind : all_tools.find? (fun t => t.name = name) = some tool)
    (hscope : tool.scope = scope) :
    (∀ e, inner = .error e → e.isToolNotAllowed = false →
      (handle_tools_call all_tools user scope name endpoint_path genId inner).1 =
        .ok { content := [{ type := "text", text := "Exception: " ++ e.text }]
              isError := true }) ∧
    (∀ e, inner = .error e → e.isToolNotAllowed = true →
      (handle_tools_call all_tools user scope name endpoint_path genId inner).1 =
        .error e) := by
  constructor <;> intro e he hflag <;> subst he <;>
    simp [handle_tools_call, hfind, hscope, hflag]

/-- C10 witness: the interpreter `TypeError` raised by the
`endpoint_path` keyword is absorbed into an `isError` result, while a
`ToolNotAllowedError` propagates. -/
theorem handle_tools_call_absorbs_exceptions_witness :
    (handle_tools_call calculatorTools aliceUser "calculator" "exact_calculate"
        "/calculator/sse" "g"
        (.error (.typeError
          "invoke_tool got an unexpected keyword argument endpoint_path"))).1 =
      .ok { content := [{
              type := "text",
              text := "Exception: " ++
                "invoke_tool got an unexpected keyword argument endpoint_path" }],
            isError := true } ∧
    (handle_tools_call calculatorTools aliceUser "calculator" "exact_calculate"
        "/calculator/sse" "g"
        (.error (.gw (.toolNotAllowed "exact_calculate" "alice")))).1 =
      .error (.gw (.toolNotAllowed "exact_calculate" "alice")) :=
  ⟨(handle_tools_call_absorbs_exceptions calculatorTools aliceUser "calculator"
      "exact_calculate" "/calculator/sse" "g" calcRow _ (by decide) rfl).1 _ rfl rfl,
   (handle_tools_call_absorbs_exceptions calculatorTools aliceUser "calculator"
      "exact_calculate" "/calculator/sse" "g" calcRow _ (by decide) rfl).2 _ rfl rfl⟩

end MCPGateway
